import Mathlib

/-!
Verification development for the kisan-sahayAI backend risk pipeline.

Shallow embedding of:
- backend/src/modules/checkin/risk-assessment.ts
- backend/src/services/ai/sentiment.service.ts
- backend/src/modules/checkin/checkin.service.ts (createCheckIn, createAlert,
  generateResponse), with the database writes modelled as fields of a pure
  pipeline-result record.

JavaScript numbers are modelled as ℤ where the source only ever holds
integers, and as ℚ where fractional values occur (sentiment scores).
Math.round is modelled as floor (x + 1/2), which is the JS semantics
(round half toward positive infinity).
-/

namespace KisanSahay

-- ============================================
-- Shared questionnaire types (shared/types.ts)
-- ============================================

inductive CropCondition | excellent | good | moderate | poor | destroyed
deriving DecidableEq, BEq

inductive LoanPressure | none | low | medium | high | severe
deriving DecidableEq, BEq

inductive SleepQuality | good | fair | poor | very_poor
deriving DecidableEq, BEq

inductive FamilySupport | strong | moderate | weak | none
deriving DecidableEq, BEq

inductive RiskLevel | LOW | MODERATE | HIGH | CRITICAL
deriving DecidableEq, BEq

/-- Numeric rank of a risk level, used to state monotonicity of the banding. -/
def levelRank : RiskLevel → ℕ
  | .LOW => 0
  | .MODERATE => 1
  | .HIGH => 2
  | .CRITICAL => 3

structure RiskAssessmentInput where
  cropCondition : CropCondition
  loanPressure : LoanPressure
  sleepQuality : SleepQuality
  familySupport : FamilySupport
  hopeLevel : ℕ
  notes : Option String
deriving DecidableEq

structure FactorScores where
  crop : ℤ
  loan : ℤ
  sleep : ℤ
  family : ℤ
  hope : ℤ
deriving DecidableEq

structure RiskAssessmentResult where
  riskScore : ℤ
  riskLevel : RiskLevel
  criticalFactors : List String
  factors : FactorScores
deriving DecidableEq

-- ============================================
-- risk-assessment.ts : RISK_WEIGHTS
-- ============================================

def cropWeight : CropCondition → ℤ
  | .excellent => 0
  | .good => 1
  | .moderate => 2
  | .poor => 3
  | .destroyed => 5

def loanWeight : LoanPressure → ℤ
  | .none => 0
  | .low => 1
  | .medium => 2
  | .high => 4
  | .severe => 5

def sleepWeight : SleepQuality → ℤ
  | .good => 0
  | .fair => 1
  | .poor => 3
  | .very_poor => 5

def familyWeight : FamilySupport → ℤ
  | .strong => 0
  | .moderate => 1
  | .weak => 3
  | .none => 5

/-- Hope level inverse scoring: Math.max(0, 5 - Math.floor(hopeLevel / 2)).
The schema validates hopeLevel as an integer in [1, 10], so ℕ is the domain;
integer division by 2 on a nonnegative value is exactly Math.floor. -/
def hopeFactor (hopeLevel : ℕ) : ℤ := max 0 (5 - (hopeLevel : ℤ) / 2)

-- ============================================
-- risk-assessment.ts : RISK_LEVELS and banding
-- ============================================

structure RiskBand where
  min : ℤ
  max : ℤ
  label : RiskLevel
deriving DecidableEq

def RISK_LEVELS : List RiskBand :=
  [⟨0, 6, .LOW⟩, ⟨7, 12, .MODERATE⟩, ⟨13, 18, .HIGH⟩, ⟨19, 30, .CRITICAL⟩]

/-- The for-loop with break over Object.values(RISK_LEVELS): first band whose
inclusive range contains the score wins. -/
def findBand (s : ℤ) : List RiskBand → Option RiskBand
  | [] => Option.none
  | b :: rest => if b.min ≤ s ∧ s ≤ b.max then some b else findBand s rest

/-- riskLevel is initialised to LOW and only overwritten by a matching band. -/
def riskLevelOfScore (s : ℤ) : RiskLevel :=
  match findBand s RISK_LEVELS with
  | some b => b.label
  | Option.none => .LOW

-- ============================================
-- risk-assessment.ts : identifyCriticalFactors, assessRisk
-- ============================================

def identifyCriticalFactors (input : RiskAssessmentInput) : List String :=
  (if input.cropCondition = .poor ∨ input.cropCondition = .destroyed then ["crop_poor"] else [])
  ++ (if input.loanPressure = .high ∨ input.loanPressure = .severe then ["loan_high"] else [])
  ++ (if input.sleepQuality = .poor ∨ input.sleepQuality = .very_poor then ["sleep_poor"] else [])
  ++ (if input.familySupport = .weak ∨ input.familySupport = .none then ["family_weak"] else [])
  ++ (if input.hopeLevel ≤ 4 then ["hope_low"] else [])

def assessRisk (input : RiskAssessmentInput) : RiskAssessmentResult :=
  let factors : FactorScores :=
    { crop := cropWeight input.cropCondition
      loan := loanWeight input.loanPressure
      sleep := sleepWeight input.sleepQuality
      family := familyWeight input.familySupport
      hope := hopeFactor input.hopeLevel }
  let riskScore := factors.crop + factors.loan + factors.sleep + factors.family + factors.hope
  { riskScore := riskScore
    riskLevel := riskLevelOfScore riskScore
    criticalFactors := identifyCriticalFactors input
    factors := factors }

/-- shouldTriggerAlert: riskLevel === HIGH || riskLevel === CRITICAL. -/
def shouldTriggerAlert (riskLevel : RiskLevel) : Bool :=
  riskLevel == .HIGH || riskLevel == .CRITICAL

inductive AlertSeverity | high | critical
deriving DecidableEq, BEq

deriving instance DecidableEq for Except

/-- getAlertSeverity: CRITICAL → critical, HIGH → high, otherwise null. -/
def getAlertSeverity : RiskLevel → Option AlertSeverity
  | .CRITICAL => some .critical
  | .HIGH => some .high
  | _ => Option.none

-- ============================================
-- sentiment.service.ts : keyword dictionaries
-- ============================================

def NEGATIVE_KEYWORDS_mr : List String :=
  ["त्रास", "दुःख", "निराशा", "थकवा", "चिंता", "भीती", "अपयश", "कर्ज",
   "नुकसान", "मृत्यू", "आत्महत्या", "संपवणे", "थांबवणे", "उपाय नाही",
   "झोप नाही", "भूक नाही", "एकटे", "कोणी नाही", "हरले"]

def NEGATIVE_KEYWORDS_hi : List String :=
  ["तनाव", "दुख", "निराशा", "थकान", "चिंता", "डर", "असफलता", "कर्ज",
   "नुकसान", "मौत", "आत्महत्या", "खत्म", "रोकना", "कोई उपाय नहीं",
   "नींद नहीं", "भूख नहीं", "अकेला", "कोई नहीं", "हार गया"]

def NEGATIVE_KEYWORDS_en : List String :=
  ["stress", "sadness", "hopeless", "tired", "anxiety", "fear", "failure", "debt",
   "loss", "death", "suicide", "end", "stop", "no way", "no solution",
   "cannot sleep", "no appetite", "alone", "nobody", "lost"]

def CRITICAL_INDICATORS_mr : List String :=
  ["आत्महत्या", "मरायचे", "संपवायचे", "जगायचे नाही", "फास", "विष"]

def CRITICAL_INDICATORS_hi : List String :=
  ["आत्महत्या", "मरना", "खत्म करना", "जीना नहीं", "फांसी", "जहर"]

def CRITICAL_INDICATORS_en : List String :=
  ["suicide", "kill myself", "end it", "dont want to live", "hanging", "poison"]

def POSITIVE_KEYWORDS_mr : List String :=
  ["आशा", "आनंद", "शांती", "मदत", "कुटुंब", "मित्र", "यश", "प्रगती"]

def POSITIVE_KEYWORDS_hi : List String :=
  ["आशा", "खुशी", "शांति", "मदद", "परिवार", "दोस्त", "सफलता", "प्रगति"]

def POSITIVE_KEYWORDS_en : List String :=
  ["hope", "happy", "peace", "help", "family", "friend", "success", "progress"]

/-- DICT[lang] || DICT.mr: the mr set is returned for every language code
other than hi and en (including the empty string, which the source first
replaces by mr). -/
def negativeWords (language : String) : List String :=
  if language = "hi" then NEGATIVE_KEYWORDS_hi
  else if language = "en" then NEGATIVE_KEYWORDS_en
  else NEGATIVE_KEYWORDS_mr

def criticalWords (language : String) : List String :=
  if language = "hi" then CRITICAL_INDICATORS_hi
  else if language = "en" then CRITICAL_INDICATORS_en
  else CRITICAL_INDICATORS_mr

def positiveWords (language : String) : List String :=
  if language = "hi" then POSITIVE_KEYWORDS_hi
  else if language = "en" then POSITIVE_KEYWORDS_en
  else POSITIVE_KEYWORDS_mr

-- ============================================
-- String helpers (JS toLowerCase / includes / trim-empty check)
-- ============================================

/-- text.trim().length === 0 (also covers the falsy empty-string check):
true iff every character is whitespace. -/
def isBlank (l : List Char) : Bool := l.all Char.isWhitespace

/-- JS String.prototype.includes: pat occurs as a contiguous substring.
(includesChars pat hay; the empty pattern is found everywhere, as in JS.) -/
def includesChars (pat : List Char) : List Char → Bool
  | [] => pat.isEmpty
  | c :: rest => pat.isPrefixOf (c :: rest) || includesChars pat rest

/-- lowerText.includes(word.toLowerCase()) where lowerText = text.toLowerCase().
Char.toLower lowers ASCII letters and leaves Devanagari unchanged, exactly
like JS toLowerCase on the alphabets used by the dictionaries. -/
def keywordMatches (text word : String) : Bool :=
  includesChars (word.data.map Char.toLower) (text.data.map Char.toLower)

/-- JS Math.round: floor (x + 1/2), i.e. round half toward +infinity. -/
def jsRound (q : ℚ) : ℤ := ⌊q + 1/2⌋

-- ============================================
-- sentiment.service.ts : analyzeSentiment
-- ============================================

inductive SentimentLabel | negative | neutral | positive
deriving DecidableEq, BEq

structure SentimentResult where
  score : ℚ
  label : SentimentLabel
  confidence : ℚ
  keywords : List String
  riskIndicators : List String
deriving DecidableEq

def analyzeSentiment (text : String) (language : String) : SentimentResult :=
  if isBlank text.data then
    { score := 0, label := .neutral, confidence := 1, keywords := [], riskIndicators := [] }
  else
    let foundCritical := (criticalWords language).filter (keywordMatches text)
    let foundNegative := (negativeWords language).filter (keywordMatches text)
    let foundPositive := (positiveWords language).filter (keywordMatches text)
    let totalWords := foundNegative.length + foundPositive.length + foundCritical.length
    let score : ℚ :=
      if 0 < foundCritical.length then -1
      else if 0 < totalWords then
        ((foundPositive.length : ℚ) + (foundNegative.length : ℚ) * (-1)) / (totalWords : ℚ)
      else 0
    let label : SentimentLabel :=
      if score < -(3/10 : ℚ) then .negative
      else if (3/10 : ℚ) < score then .positive
      else .neutral
    let confidence : ℚ := min 1 (((totalWords : ℚ) / 5) * (8/10) + 2/10)
    { score := (jsRound (score * 100) : ℚ) / 100
      label := label
      confidence := (jsRound (confidence * 100) : ℚ) / 100
      keywords := foundPositive ++ foundNegative
      riskIndicators := foundCritical }

-- ============================================
-- sentiment.service.ts : analyzeRiskFromCheckIn
-- ============================================

structure AiRiskResult where
  additionalRiskScore : ℤ
  indicators : List String
deriving DecidableEq

def analyzeRiskFromCheckIn (hopeLevel : ℕ) (notes : Option String) (language : String) :
    AiRiskResult :=
  let notesAnalysis : ℚ × List String :=
    match notes with
    | some n =>
      if isBlank n.data then (0, [])
      else
        let sentiment := analyzeSentiment n language
        let crisisScore : ℚ := if 0 < sentiment.riskIndicators.length then 30 else 0
        let crisisTag : List String :=
          if 0 < sentiment.riskIndicators.length then ["crisis_keywords_detected"] else []
        let negScore : ℚ :=
          if sentiment.label = SentimentLabel.negative then 10 * |sentiment.score| else 0
        (crisisScore + negScore, crisisTag ++ sentiment.riskIndicators)
    | Option.none => (0, [])
  let hopeScore : ℚ := if hopeLevel ≤ 2 then 15 else 0
  let hopeIndicators : List String := if hopeLevel ≤ 2 then ["very_low_hope"] else []
  { additionalRiskScore := jsRound (notesAnalysis.1 + hopeScore)
    indicators := notesAnalysis.2 ++ hopeIndicators }

-- ============================================
-- checkin.service.ts : MESSAGES and SUGGESTIONS
-- ============================================

structure ResponseMessage where
  greeting : String
  body : String
  closing : String
deriving DecidableEq

def MESSAGES : RiskLevel → ResponseMessage
  | .LOW =>
    { greeting := "नमस्कार! तुमची स्थिती चांगली दिसत आहे."
      body := "तुम्ही योग्य मार्गावर आहात. असेच चांगले काम सुरू ठेवा आणि स्वतःची काळजी घ्या."
      closing := "आम्ही तुमच्या सोबत आहोत! 💚" }
  | .MODERATE =>
    { greeting := "नमस्कार! आम्ही तुमची काळजी घेतो."
      body := "काही आव्हाने असू शकतात, पण तुम्ही एकटे नाही. शेजारी, मित्र किंवा कुटुंबाशी बोला."
      closing := "छोट्या पावलांनी मोठा बदल होतो! 💛" }
  | .HIGH =>
    { greeting := "प्रिय शेतकरी बंधू/भगिनी,"
      body := "तुम्ही कठीण परिस्थितीतून जात आहात हे आम्हाला समजते. कृपया खाली दिलेल्या हेल्पलाइनवर संपर्क साधा. मदत उपलब्ध आहे."
      closing := "तुम्ही महत्वाचे आहात! मदत मागण्यात कोणतीही लाज नाही! 🧡" }
  | .CRITICAL =>
    { greeting := "🆘 प्रिय शेतकरी बंधू/भगिनी,"
      body := "तुम्ही खूप कठीण परिस्थितीत आहात. आत्ताच मदत मिळवणे खूप महत्वाचे आहे. कृपया लगेच हेल्पलाइनवर कॉल करा: 1800-233-4000"
      closing := "तुमचे जीवन मौल्यवान आहे! आम्ही तुमच्या सोबत आहोत! ❤️" }

structure Suggestion where
  icon : String
  title : String
  desc : String
deriving DecidableEq

def agricultureSuggestion : Suggestion :=
  { icon := "🌱", title := "कृषी सल्ला",
    desc := "नवीन पिक पद्धती आणि शेती तंत्रज्ञानाबद्दल जाणून घ्या" }

def governmentSuggestion : Suggestion :=
  { icon := "🏛️", title := "सरकारी योजना",
    desc := "पीएम किसान, विमा योजना आणि इतर लाभ मिळवा" }

/-- SUGGESTIONS[factor]: the keyed lookup table; factors without an entry
(e.g. crisis_keywords_detected, very_low_hope, raw crisis phrases) yield null. -/
def suggestionFor : String → Option Suggestion
  | "crop_poor" =>
    some { icon := "🌾", title := "कृषी विभाग संपर्क",
           desc := "पीक विमा आणि नुकसान भरपाईसाठी तालुका कृषी अधिकाऱ्यांशी संपर्क साधा" }
  | "loan_high" =>
    some { icon := "💰", title := "कर्ज पुनर्रचना",
           desc := "बँकेत कर्ज पुनर्रचनेसाठी अर्ज करा. सरकारी योजनांचा लाभ घ्या" }
  | "sleep_poor" =>
    some { icon := "😴", title := "झोप सुधारणा",
           desc := "रात्री उशिरा मोबाइल वापर टाळा. नियमित वेळेत झोपा" }
  | "family_weak" =>
    some { icon := "👨‍👩‍👧‍👦", title := "कुटुंब संवाद",
           desc := "कुटुंबातील सदस्यांशी मोकळेपणाने बोला. एकत्र वेळ घालवा" }
  | "hope_low" =>
    some { icon := "💪", title := "सकारात्मक विचार",
           desc := "कठीण काळ नक्की संपतो. यशस्वी शेतकऱ्यांच्या कथा वाचा" }
  | "agriculture" => some agricultureSuggestion
  | "government" => some governmentSuggestion
  | _ => Option.none

structure CheckInResponse where
  message : ResponseMessage
  suggestions : List Suggestion
  showEmergency : Bool
deriving DecidableEq

-- ============================================
-- checkin.service.ts : generateResponse
-- ============================================

def generateResponse (riskLevel : RiskLevel) (criticalFactors : List String) :
    CheckInResponse :=
  let suggestions :=
    criticalFactors.foldl
      (fun acc factor =>
        match suggestionFor factor with
        | some s => acc ++ [s]
        | Option.none => acc)
      ([] : List Suggestion)
  let suggestions :=
    if suggestions.length < 2 then suggestions ++ [agricultureSuggestion] else suggestions
  let suggestions :=
    if riskLevel ≠ RiskLevel.LOW ∧ suggestions.length < 3 then
      suggestions ++ [governmentSuggestion]
    else suggestions
  { message := MESSAGES riskLevel
    suggestions := suggestions.take 4
    showEmergency := riskLevel == .HIGH || riskLevel == .CRITICAL }

-- ============================================
-- checkin.service.ts : createAlert and createCheckIn
-- ============================================

/-- The severity computation and defensive throw at the top of createAlert;
the subsequent persistence writes always succeed in the model. -/
def createAlert (riskLevel : RiskLevel) : Except String AlertSeverity :=
  match getAlertSeverity riskLevel with
  | some severity => Except.ok severity
  | Option.none => Except.error "Cannot create alert for non-high/critical risk level"

/-- farmer?.preferredLang || 'mr'. -/
def preferredOrDefault : Option String → String
  | some l => if l = "" then "mr" else l
  | Option.none => "mr"

/-- The crisis-keyword upgrade block: three sequential (non-exclusive) if
statements reassigning finalRiskLevel. -/
def stepUp (l : RiskLevel) : RiskLevel :=
  let l1 := if l = RiskLevel.LOW then RiskLevel.MODERATE else l
  let l2 := if l1 = RiskLevel.MODERATE then RiskLevel.HIGH else l1
  if l2 = RiskLevel.HIGH then RiskLevel.CRITICAL else l2

/-- Recalculate risk level based on final score (authoritative recomputation). -/
def recomputeLevel (s : ℤ) : RiskLevel :=
  if 80 ≤ s then .CRITICAL
  else if 60 ≤ s then .HIGH
  else if 40 ≤ s then .MODERATE
  else .LOW

/-- JSON.stringify on a list of strings, none of which contain characters that
JSON escapes (true of every factor tag and dictionary keyword). -/
def jsonStringify (l : List String) : String :=
  "[" ++ String.intercalate "," (l.map (fun s => "\"" ++ s ++ "\"")) ++ "]"

/-- The persisted CheckIn row fields computed by createCheckIn. -/
structure CheckInRecord where
  riskScore : ℤ
  riskLevel : RiskLevel
  criticalFactors : String
  alertTriggered : Bool
deriving DecidableEq

/-- Pure observation of one createCheckIn run: the persisted check-in, the
conditional alert creation, the farmer status side effect and the response. -/
structure PipelineResult where
  assessment : RiskAssessmentResult
  aiAnalysis : AiRiskResult
  allCriticalFactors : List String
  intermediateLevel : RiskLevel
  checkIn : CheckInRecord
  alertResult : Option (Except String AlertSeverity)
  farmerCriticalWatch : Bool
  response : CheckInResponse

def createCheckIn (preferredLang : Option String) (input : RiskAssessmentInput) :
    PipelineResult :=
  let lang := preferredOrDefault preferredLang
  let assessment := assessRisk input
  let aiAnalysis := analyzeRiskFromCheckIn input.hopeLevel input.notes lang
  let crisis := aiAnalysis.indicators.contains "crisis_keywords_detected"
  let finalRiskScore0 := assessment.riskScore + aiAnalysis.additionalRiskScore
  let allCriticalFactors := assessment.criticalFactors ++ aiAnalysis.indicators
  let finalRiskScore := if crisis then min 100 (finalRiskScore0 + 20) else finalRiskScore0
  let intermediateLevel := if crisis then stepUp assessment.riskLevel else assessment.riskLevel
  let finalRiskLevel := recomputeLevel finalRiskScore
  { assessment := assessment
    aiAnalysis := aiAnalysis
    allCriticalFactors := allCriticalFactors
    intermediateLevel := intermediateLevel
    checkIn :=
      { riskScore := finalRiskScore
        riskLevel := finalRiskLevel
        criticalFactors := jsonStringify allCriticalFactors
        alertTriggered := shouldTriggerAlert finalRiskLevel }
    alertResult :=
      if shouldTriggerAlert finalRiskLevel then some (createAlert finalRiskLevel)
      else Option.none
    farmerCriticalWatch := finalRiskLevel == .CRITICAL
    response := generateResponse finalRiskLevel allCriticalFactors }

/-- Spec-side comparator for claim C4: the single-step band successor the
claim describes (LOW to MODERATE, MODERATE to HIGH, HIGH to CRITICAL,
CRITICAL stays CRITICAL). Written from the claim wording, to be compared
with the stepUp function translated from the source. -/
def specSingleStepUp : RiskLevel → RiskLevel
  | .LOW => .MODERATE
  | .MODERATE => .HIGH
  | .HIGH => .CRITICAL
  | .CRITICAL => .CRITICAL

-- ============================================
-- Helper lemmas
-- ============================================

/-- Closed-form characterisation of the banding loop. -/
lemma riskLevelOfScore_spec (s : ℤ) :
    riskLevelOfScore s =
      if 0 ≤ s ∧ s ≤ 6 then .LOW
      else if 7 ≤ s ∧ s ≤ 12 then .MODERATE
      else if 13 ≤ s ∧ s ≤ 18 then .HIGH
      else if 19 ≤ s ∧ s ≤ 30 then .CRITICAL
      else .LOW := by
  simp only [riskLevelOfScore, RISK_LEVELS, findBand]
  split_ifs <;> simp_all

/-- The three sequential if statements cascade: every level reaches CRITICAL. -/
lemma stepUp_eq_critical (l : RiskLevel) : stepUp l = .CRITICAL := by
  cases l <;> rfl

lemma preferredOrDefault_en : preferredOrDefault (some "en") = "en" := by decide

/-- With no notes, the AI analysis only applies the very-low-hope rule. -/
lemma analyzeRiskFromCheckIn_no_notes (hopeLevel : ℕ) (language : String) :
    analyzeRiskFromCheckIn hopeLevel Option.none language =
      { additionalRiskScore := if hopeLevel ≤ 2 then 15 else 0
        indicators := if hopeLevel ≤ 2 then ["very_low_hope"] else [] } := by
  simp only [analyzeRiskFromCheckIn]
  split_ifs <;> norm_num [jsRound]

/-- Sentiment of the text "poison" in English: exactly the crisis phrase
matches, so the score is forced to -1 and the label is negative. -/
lemma analyzeSentiment_poison :
    analyzeSentiment "poison" "en" =
      { score := -1, label := .negative, confidence := 9/25,
        keywords := [], riskIndicators := ["poison"] } := by
  have hb : isBlank "poison".data = false := by decide
  have hc : (criticalWords "en").filter (keywordMatches "poison") = ["poison"] := by decide
  have hn : (negativeWords "en").filter (keywordMatches "poison") = [] := by decide
  have hp : (positiveWords "en").filter (keywordMatches "poison") = [] := by decide
  simp only [analyzeSentiment, hb, hc, hn, hp]
  norm_num [jsRound]

/-- AI analysis of the crisis-only note "poison" at a hope level above 2:
30 for the crisis flag plus 10 * |-1| for the forced negative label. -/
lemma analyzeRiskFromCheckIn_poison (hopeLevel : ℕ) (hh : ¬ hopeLevel ≤ 2) :
    analyzeRiskFromCheckIn hopeLevel (some "poison") "en" =
      { additionalRiskScore := 40
        indicators := ["crisis_keywords_detected", "poison"] } := by
  have hb : isBlank "poison".data = false := by decide
  simp only [analyzeRiskFromCheckIn, analyzeSentiment_poison, hb]
  norm_num [jsRound, hh]

/-- Sentiment of the text "suicide" in English: the crisis phrase and the
negative keyword both match. -/
lemma analyzeSentiment_suicide :
    analyzeSentiment "suicide" "en" =
      { score := -1, label := .negative, confidence := 13/25,
        keywords := ["suicide"], riskIndicators := ["suicide"] } := by
  have hb : isBlank "suicide".data = false := by decide
  have hc : (criticalWords "en").filter (keywordMatches "suicide") = ["suicide"] := by decide
  have hn : (negativeWords "en").filter (keywordMatches "suicide") = ["suicide"] := by decide
  have hp : (positiveWords "en").filter (keywordMatches "suicide") = [] := by decide
  simp only [analyzeSentiment, hb, hc, hn, hp]
  norm_num [jsRound]

/-- AI analysis of the note "suicide" at hope level 1: crisis flag, forced
negative label, and the very-low-hope rule all fire. -/
lemma analyzeRiskFromCheckIn_suicide_hope1 :
    analyzeRiskFromCheckIn 1 (some "suicide") "en" =
      { additionalRiskScore := 55
        indicators := ["crisis_keywords_detected", "suicide", "very_low_hope"] } := by
  have hb : isBlank "suicide".data = false := by decide
  simp only [analyzeRiskFromCheckIn, analyzeSentiment_suicide, hb]
  norm_num [jsRound]

-- ============================================
-- Claims
-- ============================================

/-- Claim C1, counterexample: the pipeline run with crop=destroyed,
loan=severe, sleep=very_poor, family=none, hopeLevel=10 and no notes has
finalRiskScore 20; the structured banding rule maps 20 to CRITICAL, but the
persisted finalRiskLevel is LOW, so the claimed banding rule is not the one
used for the final recomputation. -/
theorem claim_C1_counterexample :
    (createCheckIn Option.none
        ⟨.destroyed, .severe, .very_poor, .none, 10, Option.none⟩).checkIn.riskScore = 20 ∧
    riskLevelOfScore 20 = RiskLevel.CRITICAL ∧
    (createCheckIn Option.none
        ⟨.destroyed, .severe, .very_poor, .none, 10, Option.none⟩).checkIn.riskLevel =
      RiskLevel.LOW ∧
    RiskLevel.LOW ≠ RiskLevel.CRITICAL := by
  refine ⟨?_, by decide, ?_, by decide⟩ <;>
    simp only [createCheckIn, preferredOrDefault, analyzeRiskFromCheckIn_no_notes] <;>
    decide

/-- Claim C1, amended: the persisted finalRiskLevel is always recomputed from
finalRiskScore, but via the 0-100-scale thresholds (CRITICAL for score ≥ 80,
HIGH for ≥ 60, MODERATE for ≥ 40, LOW otherwise), not via the structured
0-30 bands; it is never inherited from the structured level. -/
theorem claim_C1_amended (preferredLang : Option String) (input : RiskAssessmentInput) :
    (createCheckIn preferredLang input).checkIn.riskLevel =
      recomputeLevel (createCheckIn preferredLang input).checkIn.riskScore := by
  rfl

/-- Claim C2: for crop=destroyed, loan=severe, sleep=very_poor, family=none,
hopeLevel=1 and no notes, the structured assessment does yield riskScore 25
and riskLevel CRITICAL, but the pipeline then adds the very-low-hope AI score
of 15, reaching finalRiskScore 40, and the authoritative recomputation maps
40 to MODERATE: no alert is created, alertTriggered is false, and the farmer
status is not set to critical_watch — contradicting the claimed
triggersAlert=true / severity critical / critical_watch outcome. -/
theorem claim_C2_code_evaluation :
    (assessRisk ⟨.destroyed, .severe, .very_poor, .none, 1, Option.none⟩).riskScore = 25 ∧
    (assessRisk ⟨.destroyed, .severe, .very_poor, .none, 1, Option.none⟩).riskLevel =
      RiskLevel.CRITICAL ∧
    (createCheckIn Option.none
        ⟨.destroyed, .severe, .very_poor, .none, 1, Option.none⟩).checkIn.riskScore = 40 ∧
    (createCheckIn Option.none
        ⟨.destroyed, .severe, .very_poor, .none, 1, Option.none⟩).checkIn.riskLevel =
      RiskLevel.MODERATE ∧
    (createCheckIn Option.none
        ⟨.destroyed, .severe, .very_poor, .none, 1, Option.none⟩).checkIn.alertTriggered =
      false ∧
    (createCheckIn Option.none
        ⟨.destroyed, .severe, .very_poor, .none, 1, Option.none⟩).alertResult =
      Option.none ∧
    (createCheckIn Option.none
        ⟨.destroyed, .severe, .very_poor, .none, 1, Option.none⟩).farmerCriticalWatch =
      false := by
  refine ⟨by decide, by decide, ?_, ?_, ?_, ?_, ?_⟩ <;>
    simp only [createCheckIn, preferredOrDefault, analyzeRiskFromCheckIn_no_notes] <;>
    decide

/-- Claim C3, counterexample: at hopeLevel 8 the hope factor is 1, so the
structured score of the best-case questionnaire is 1, not 0 (a structured
score of 0 is impossible at hopeLevel 8); and for notes containing only the
crisis phrase "poison", the forced score of -1 makes the sentiment label
negative, so the AI adds 30 + 10 * |-1| = 40, not 30; the +20 escalation then
yields finalRiskScore 61 and the recomputed level is HIGH, not MODERATE. -/
theorem claim_C3_counterexample :
    (assessRisk ⟨.excellent, .none, .good, .strong, 8, some "poison"⟩).riskScore = 1 ∧
    (assessRisk ⟨.excellent, .none, .good, .strong, 8, some "poison"⟩).riskLevel =
      RiskLevel.LOW ∧
    (createCheckIn (some "en")
        ⟨.excellent, .none, .good, .strong, 8, some "poison"⟩).aiAnalysis.additionalRiskScore
      = 40 ∧
    (40 : ℤ) ≠ 30 ∧
    (createCheckIn (some "en")
        ⟨.excellent, .none, .good, .strong, 8, some "poison"⟩).checkIn.riskScore = 61 ∧
    (61 : ℤ) ≠ 50 ∧
    (createCheckIn (some "en")
        ⟨.excellent, .none, .good, .strong, 8, some "poison"⟩).checkIn.riskLevel =
      RiskLevel.HIGH ∧
    RiskLevel.HIGH ≠ RiskLevel.MODERATE := by
  have hai := analyzeRiskFromCheckIn_poison 8 (by decide)
  refine ⟨by decide, by decide, ?_, by decide, ?_, by decide, ?_, by decide⟩ <;>
    simp only [createCheckIn, preferredOrDefault_en, hai] <;> decide

/-- Claim C3, amended: for the best-case questionnaire with hopeLevel 8
(structured score 1, level LOW) and notes containing only a crisis phrase,
the AI additional score is 40 (30 for the crisis flag plus 10 from the
negative label forced by the -1 score), the +20 escalation yields
finalRiskScore 61, and the recomputed finalRiskLevel is HIGH — in
particular at least MODERATE. -/
theorem claim_C3_amended :
    (createCheckIn (some "en")
        ⟨.excellent, .none, .good, .strong, 8, some "poison"⟩).aiAnalysis.additionalRiskScore
      = 40 ∧
    (createCheckIn (some "en")
        ⟨.excellent, .none, .good, .strong, 8, some "poison"⟩).checkIn.riskScore = 61 ∧
    (createCheckIn (some "en")
        ⟨.excellent, .none, .good, .strong, 8, some "poison"⟩).checkIn.riskLevel =
      RiskLevel.HIGH ∧
    levelRank RiskLevel.MODERATE ≤
      levelRank (createCheckIn (some "en")
        ⟨.excellent, .none, .good, .strong, 8, some "poison"⟩).checkIn.riskLevel := by
  have hai := analyzeRiskFromCheckIn_poison 8 (by decide)
  refine ⟨?_, ?_, ?_, ?_⟩ <;>
    simp only [createCheckIn, preferredOrDefault_en, hai] <;> decide

/-- Claim C5: for every non-blank text and every language, if some
critical-indicator phrase of the effective language set occurs
case-insensitively in the text, analyzeSentiment returns score -1,
regardless of any other keyword matches. -/
theorem claim_C5_critical_dominates (text language word : String)
    (hw : word ∈ criticalWords language)
    (hm : keywordMatches text word = true)
    (hb : isBlank text.data = false) :
    (analyzeSentiment text language).score = -1 := by
  have hmem : word ∈ (criticalWords language).filter (keywordMatches text) :=
    List.mem_filter.mpr ⟨hw, hm⟩
  have hpos : 0 < ((criticalWords language).filter (keywordMatches text)).length :=
    List.length_pos.mpr (List.ne_nil_of_mem hmem)
  simp only [analyzeSentiment, hb, Bool.false_eq_true, if_false, if_pos hpos]
  norm_num [jsRound]

/-- Witness for claim C5: the English text "feeling happy but poison" matches
the crisis phrase "poison" together with a positive keyword, and the score is
still -1. -/
theorem claim_C5_critical_dominates_witness :
    "poison" ∈ criticalWords "en" ∧
    keywordMatches "feeling happy but poison" "poison" = true ∧
    isBlank "feeling happy but poison".data = false ∧
    (analyzeSentiment "feeling happy but poison" "en").score = -1 := by
  exact ⟨by decide, by decide, by decide,
    claim_C5_critical_dominates "feeling happy but poison" "en" "poison"
      (by decide) (by decide) (by decide)⟩

/-- Claim C4, counterexample: for structured level LOW the escalation block
produces the intermediate level CRITICAL, not the single-step successor
MODERATE, because the three if statements are sequential and cascade. -/
theorem claim_C4_counterexample :
    stepUp RiskLevel.LOW = RiskLevel.CRITICAL ∧
    specSingleStepUp RiskLevel.LOW = RiskLevel.MODERATE ∧
    stepUp RiskLevel.LOW ≠ specSingleStepUp RiskLevel.LOW := by
  refine ⟨by decide, by decide, by decide⟩

/-- Claim C4, amended: when crisis keywords are detected the escalation block
adds 20 to finalRiskScore capped at 100, but the three sequential if
statements cascade, so the intermediate level is CRITICAL for every
structured level (not the single-step successor). -/
theorem claim_C4_amended (l : RiskLevel) (preferredLang : Option String)
    (input : RiskAssessmentInput) :
    stepUp l = RiskLevel.CRITICAL ∧
    ((createCheckIn preferredLang input).aiAnalysis.indicators.contains
        "crisis_keywords_detected" = true →
      (createCheckIn preferredLang input).intermediateLevel = RiskLevel.CRITICAL ∧
      (createCheckIn preferredLang input).checkIn.riskScore =
        min 100 ((assessRisk input).riskScore +
          (createCheckIn preferredLang input).aiAnalysis.additionalRiskScore + 20)) := by
  refine ⟨stepUp_eq_critical l, fun h => ?_⟩
  simp only [createCheckIn] at h ⊢
  rw [h]
  exact ⟨by simp [stepUp_eq_critical], by simp⟩

/-- Witness for claim C4 amended theorem at a concrete crisis check-in. -/
theorem claim_C4_amended_witness :
    (createCheckIn (some "en")
        ⟨.good, .low, .good, .strong, 9, some "poison"⟩).aiAnalysis.indicators.contains
      "crisis_keywords_detected" = true ∧
    (createCheckIn (some "en")
        ⟨.good, .low, .good, .strong, 9, some "poison"⟩).intermediateLevel =
      RiskLevel.CRITICAL ∧
    (createCheckIn (some "en")
        ⟨.good, .low, .good, .strong, 9, some "poison"⟩).checkIn.riskScore =
      min 100 ((assessRisk ⟨.good, .low, .good, .strong, 9, some "poison"⟩).riskScore +
        (createCheckIn (some "en")
          ⟨.good, .low, .good, .strong, 9, some "poison"⟩).aiAnalysis.additionalRiskScore
        + 20) := by
  have h : (createCheckIn (some "en")
      ⟨.good, .low, .good, .strong, 9, some "poison"⟩).aiAnalysis.indicators.contains
      "crisis_keywords_detected" = true := by decide
  exact ⟨h, (claim_C4_amended RiskLevel.LOW (some "en")
    ⟨.good, .low, .good, .strong, 9, some "poison"⟩).2 h⟩

/-- Claim C6: the four bands cover each score in [0,30] exactly once, the
resulting level is monotonically non-decreasing on [0,30], and any score
outside [0,30] falls through the loop and defaults to LOW. -/
theorem claim_C6_banding (s t u : ℤ) :
    (0 ≤ s → s ≤ 30 →
      (RISK_LEVELS.countP (fun b => decide (b.min ≤ s) && decide (s ≤ b.max))) = 1) ∧
    (0 ≤ s → s ≤ t → t ≤ 30 →
      levelRank (riskLevelOfScore s) ≤ levelRank (riskLevelOfScore t)) ∧
    (u < 0 ∨ 30 < u → riskLevelOfScore u = RiskLevel.LOW) := by
  refine ⟨fun h0 h30 => ?_, fun h0 hst ht => ?_, fun hu => ?_⟩
  · interval_cases s <;> decide
  · rw [riskLevelOfScore_spec, riskLevelOfScore_spec]
    split_ifs <;> simp [levelRank] <;> omega
  · rw [riskLevelOfScore_spec]
    split_ifs <;> first | rfl | omega

/-- Witness for claim C6 at score 5, larger score 20 and out-of-range 31. -/
theorem claim_C6_banding_witness :
    (RISK_LEVELS.countP (fun b => decide (b.min ≤ (5 : ℤ)) && decide ((5 : ℤ) ≤ b.max))) = 1 ∧
    levelRank (riskLevelOfScore 5) ≤ levelRank (riskLevelOfScore 20) ∧
    riskLevelOfScore 31 = RiskLevel.LOW := by
  refine ⟨(claim_C6_banding 5 20 31).1 (by decide) (by decide),
    (claim_C6_banding 5 20 31).2.1 (by decide) (by decide) (by decide),
    (claim_C6_banding 5 20 31).2.2 (Or.inr (by decide))⟩

/-- Claim C7: the hope factor is max(0, 5 - floor(hopeLevel/2)), monotonically
non-increasing on the valid range [1,10], with value 0 at hopeLevel 10 and 5
at hopeLevel 1. -/
theorem claim_C7_hope_factor (h1 h2 : ℕ) :
    hopeFactor h1 = max 0 (5 - (h1 : ℤ) / 2) ∧
    (1 ≤ h1 → h1 ≤ h2 → h2 ≤ 10 → hopeFactor h2 ≤ hopeFactor h1) ∧
    hopeFactor 10 = 0 ∧
    hopeFactor 1 = 5 := by
  refine ⟨rfl, fun hlo hle hhi => ?_, by decide, by decide⟩
  have h1le : h1 ≤ 10 := le_trans hle hhi
  interval_cases h1 <;> interval_cases h2 <;> decide

/-- Witness for claim C7 at hopeLevel values 4 and 9. -/
theorem claim_C7_hope_factor_witness :
    hopeFactor 4 = max 0 (5 - (4 : ℤ) / 2) ∧ hopeFactor 9 ≤ hopeFactor 4 := by
  exact ⟨(claim_C7_hope_factor 4 9).1,
    (claim_C7_hope_factor 4 9).2.1 (by decide) (by decide) (by decide)⟩

/-- The suggestion-accumulating loop of generateResponse is filterMap. -/
lemma foldl_suggestions_eq_filterMap (factors : List String) (acc : List Suggestion) :
    factors.foldl
      (fun a factor =>
        match suggestionFor factor with
        | some s => a ++ [s]
        | Option.none => a)
      acc = acc ++ factors.filterMap suggestionFor := by
  induction factors generalizing acc with
  | nil => simp
  | cons f rest ih =>
    cases h : suggestionFor f <;>
      simp [List.foldl_cons, List.filterMap_cons, h, ih]

/-- Length bounds for the appended-and-truncated suggestion list. -/
lemma suggestions_take_length_bounds (riskLevel : RiskLevel) (base : List Suggestion) :
    1 ≤ (List.take 4
        (if riskLevel ≠ RiskLevel.LOW ∧
            (if base.length < 2 then base ++ [agricultureSuggestion] else base).length < 3 then
          (if base.length < 2 then base ++ [agricultureSuggestion] else base)
            ++ [governmentSuggestion]
        else
          (if base.length < 2 then base ++ [agricultureSuggestion] else base))).length ∧
    (List.take 4
        (if riskLevel ≠ RiskLevel.LOW ∧
            (if base.length < 2 then base ++ [agricultureSuggestion] else base).length < 3 then
          (if base.length < 2 then base ++ [agricultureSuggestion] else base)
            ++ [governmentSuggestion]
        else
          (if base.length < 2 then base ++ [agricultureSuggestion] else base))).length ≤ 4 := by
  constructor <;>
    split_ifs <;>
      simp only [List.length_take, List.length_append, List.length_cons,
        List.length_nil] <;>
      omega

/-- Claim C8: generateResponse always returns between 1 and 4 suggestions:
the factor-derived suggestions come first in insertion order, the
agriculture fallback is appended when fewer than 2 exist, the
government-schemes suggestion is appended when the level is not LOW and
fewer than 3 exist at that point, and the list is truncated to 4. -/
theorem claim_C8_suggestions (riskLevel : RiskLevel) (criticalFactors : List String) :
    1 ≤ (generateResponse riskLevel criticalFactors).suggestions.length ∧
    (generateResponse riskLevel criticalFactors).suggestions.length ≤ 4 ∧
    (generateResponse riskLevel criticalFactors).suggestions =
      (let base := criticalFactors.filterMap suggestionFor
       let withAgriculture :=
         if base.length < 2 then base ++ [agricultureSuggestion] else base
       let withGovernment :=
         if riskLevel ≠ RiskLevel.LOW ∧ withAgriculture.length < 3 then
           withAgriculture ++ [governmentSuggestion]
         else withAgriculture
       withGovernment.take 4) := by
  have hfold := foldl_suggestions_eq_filterMap criticalFactors []
  have hstruct : (generateResponse riskLevel criticalFactors).suggestions =
      (let base := criticalFactors.filterMap suggestionFor
       let withAgriculture :=
         if base.length < 2 then base ++ [agricultureSuggestion] else base
       let withGovernment :=
         if riskLevel ≠ RiskLevel.LOW ∧ withAgriculture.length < 3 then
           withAgriculture ++ [governmentSuggestion]
         else withAgriculture
       withGovernment.take 4) := by
    simp only [generateResponse, hfold, List.nil_append]
  refine ⟨?_, ?_, hstruct⟩ <;> rw [hstruct]
  · exact (suggestions_take_length_bounds riskLevel
      (criticalFactors.filterMap suggestionFor)).1
  · exact (suggestions_take_length_bounds riskLevel
      (criticalFactors.filterMap suggestionFor)).2

/-- Is the observed alert-creation outcome free of the defensive error? -/
def alertCreationSucceeded (p : PipelineResult) : Bool :=
  match p.alertResult with
  | some (Except.error _) => false
  | _ => true

/-- The alert branch taken by the pipeline never hits the defensive throw. -/
lemma alertResult_ok (l : RiskLevel) :
    (match (if shouldTriggerAlert l then some (createAlert l)
            else Option.none : Option (Except String AlertSeverity)) with
      | some (Except.error _) => false
      | _ => true) = true := by
  cases l <;> rfl

/-- Claim C9: the defensive error branch of createAlert is unreachable from
the pipeline: getAlertSeverity returns high for HIGH and critical for
CRITICAL, createAlert succeeds for every level passing shouldTriggerAlert,
and every pipeline run either creates no alert or creates one successfully. -/
theorem claim_C9_alert_safety (preferredLang : Option String)
    (input : RiskAssessmentInput) (l : RiskLevel) :
    getAlertSeverity RiskLevel.HIGH = some AlertSeverity.high ∧
    getAlertSeverity RiskLevel.CRITICAL = some AlertSeverity.critical ∧
    (shouldTriggerAlert l = true →
      ∃ severity, createAlert l = Except.ok severity) ∧
    alertCreationSucceeded (createCheckIn preferredLang input) = true := by
  refine ⟨rfl, rfl, fun h => ?_, ?_⟩
  · cases l <;> first
      | exact ⟨AlertSeverity.high, rfl⟩
      | exact ⟨AlertSeverity.critical, rfl⟩
      | exact absurd h (by decide)
  · exact alertResult_ok _

/-- Witness for claim C9 at level HIGH and a concrete check-in. -/
theorem claim_C9_alert_safety_witness :
    (∃ severity, createAlert RiskLevel.HIGH = Except.ok severity) ∧
    alertCreationSucceeded
      (createCheckIn Option.none
        ⟨.moderate, .medium, .fair, .moderate, 6, Option.none⟩) = true := by
  exact ⟨(claim_C9_alert_safety Option.none
      ⟨.moderate, .medium, .fair, .moderate, 6, Option.none⟩ RiskLevel.HIGH).2.2.1
        (by decide),
    (claim_C9_alert_safety Option.none
      ⟨.moderate, .medium, .fair, .moderate, 6, Option.none⟩ RiskLevel.HIGH).2.2.2⟩

/-- Claim C10: if the notes match at least one crisis-indicator phrase, the
combined critical-factors list is the structured tags followed by the
crisis_keywords_detected tag, then the matched crisis phrases verbatim in
dictionary order, then the very-low-hope tag when applicable; and exactly
this list is serialized into the persisted CheckIn.criticalFactors. -/
theorem claim_C10_crisis_factors (preferredLang : Option String)
    (input : RiskAssessmentInput) (n : String)
    (hn : input.notes = some n)
    (hb : isBlank n.data = false)
    (hc : (criticalWords (preferredOrDefault preferredLang)).filter (keywordMatches n) ≠ []) :
    (createCheckIn preferredLang input).allCriticalFactors =
      (assessRisk input).criticalFactors
        ++ ["crisis_keywords_detected"]
        ++ (criticalWords (preferredOrDefault preferredLang)).filter (keywordMatches n)
        ++ (if input.hopeLevel ≤ 2 then ["very_low_hope"] else []) ∧
    (createCheckIn preferredLang input).checkIn.criticalFactors =
      jsonStringify ((createCheckIn preferredLang input).allCriticalFactors) := by
  have hri : (analyzeSentiment n (preferredOrDefault preferredLang)).riskIndicators =
      (criticalWords (preferredOrDefault preferredLang)).filter (keywordMatches n) := by
    simp only [analyzeSentiment, hb, Bool.false_eq_true, if_false]
  have hpos : 0 < ((criticalWords (preferredOrDefault preferredLang)).filter
      (keywordMatches n)).length := List.length_pos.mpr hc
  have hind : (analyzeRiskFromCheckIn input.hopeLevel input.notes
      (preferredOrDefault preferredLang)).indicators =
      ["crisis_keywords_detected"]
        ++ (criticalWords (preferredOrDefault preferredLang)).filter (keywordMatches n)
        ++ (if input.hopeLevel ≤ 2 then ["very_low_hope"] else []) := by
    simp only [analyzeRiskFromCheckIn, hn, hb, Bool.false_eq_true, if_false, hri,
      if_pos hpos, List.append_assoc]
  constructor
  · simp only [createCheckIn, hind, List.append_assoc]
  · rfl

/-- Witness for claim C10: a poor-crop, hope-2 check-in whose English note
contains the crisis phrase suicide. -/
theorem claim_C10_crisis_factors_witness :
    (⟨.poor, .none, .good, .strong, 2,
        some "suicide note"⟩ : RiskAssessmentInput).notes = some "suicide note" ∧
    isBlank "suicide note".data = false ∧
    (criticalWords (preferredOrDefault (some "en"))).filter
      (keywordMatches "suicide note") ≠ [] ∧
    (createCheckIn (some "en")
        ⟨.poor, .none, .good, .strong, 2, some "suicide note"⟩).allCriticalFactors =
      (assessRisk ⟨.poor, .none, .good, .strong, 2, some "suicide note"⟩).criticalFactors
        ++ ["crisis_keywords_detected"]
        ++ (criticalWords (preferredOrDefault (some "en"))).filter
             (keywordMatches "suicide note")
        ++ (if (⟨.poor, .none, .good, .strong, 2,
              some "suicide note"⟩ : RiskAssessmentInput).hopeLevel ≤ 2 then
              ["very_low_hope"] else []) ∧
    (createCheckIn (some "en")
        ⟨.poor, .none, .good, .strong, 2, some "suicide note"⟩).checkIn.criticalFactors =
      jsonStringify ((createCheckIn (some "en")
        ⟨.poor, .none, .good, .strong, 2, some "suicide note"⟩).allCriticalFactors) := by
  refine ⟨rfl, by decide, by decide, ?_, ?_⟩
  · exact (claim_C10_crisis_factors (some "en")
      ⟨.poor, .none, .good, .strong, 2, some "suicide note"⟩ "suicide note"
      rfl (by decide) (by decide)).1
  · exact (claim_C10_crisis_factors (some "en")
      ⟨.poor, .none, .good, .strong, 2, some "suicide note"⟩ "suicide note"
      rfl (by decide) (by decide)).2

end KisanSahay
